import Mathlib

/-
Shallow embedding of the Libra e2e-tests account fixture library
(src/language/e2e-tests/src/account.rs) used to check the natural-language
specification against the code.  Machine integers (u64) are modelled as Nat;
the places where the Rust code relies on the u64 range carry explicit
hypotheses.  Fallible operations (serialization, `unwrap`) are modelled with
Option, where `none` stands for the panic of an `unwrap` on `None`/`Err`.
-/

set_option autoImplicit false

namespace LibraAccount

/-! ## Byte-level helpers (little-endian encoding, uleb128 lengths) -/

/-- Little-endian byte encoding of a natural number into `k` bytes
(each entry is a byte value, i.e. taken mod 256). -/
def natToLE : Nat → Nat → List Nat
  | 0, _ => []
  | k + 1, n => n % 256 :: natToLE k (n / 256)

/-- Read back a little-endian byte list as a natural number. -/
def leToNat : List Nat → Nat
  | [] => 0
  | b :: bs => b % 256 + 256 * leToNat bs

/-- uleb128 encoding of a length, as used by the serializer for vector sizes. -/
def ulebEncode (n : Nat) : List Nat :=
  if h : n < 128 then [n]
  else (n % 128 + 128) :: ulebEncode (n / 128)
termination_by n
decreasing_by exact Nat.div_lt_self (by omega) (by omega)

/-! ## Identity: keys, addresses -/

/-- Underlying model of an ed25519 private key (abstract key material). -/
structure Ed25519PrivateKey where
  val : Nat
deriving DecidableEq, Repr

/-- Underlying model of an ed25519 public key (abstract key material). -/
structure Ed25519PublicKey where
  val : Nat
deriving DecidableEq, Repr

abbrev AccountAddress := Nat

abbrev Identifier := String

/-- Modelled from the spec: the address is a one-way hash of the public key
(`libra_types::account_address::from_public_key`, outside src).  The hash is
modelled as a fixed deterministic function of the key material; no claim
relies on properties of the hash beyond determinism. -/
def from_public_key (pk : Ed25519PublicKey) : AccountAddress := pk.val

/-- Modelled from the spec: the public key that corresponds to a private key
under the external signing primitive (a signature made with `sk` verifies
against exactly `pubkey_of sk`). -/
def pubkey_of (sk : Ed25519PrivateKey) : Ed25519PublicKey := ⟨sk.val⟩

/-- Modelled from the spec: `AuthenticationKey::ed25519(pk).to_vec()`
(outside src) — a fixed-size byte string derived from the current public key. -/
def auth_key_bytes (pk : Ed25519PublicKey) : List Nat := natToLE 32 pk.val

/-! ## Account (Identity component) -/

/-- `Account` from account.rs: address plus current keypair. -/
structure Account where
  addr : AccountAddress
  privkey : Ed25519PrivateKey
  pubkey : Ed25519PublicKey
deriving DecidableEq, Repr

/-- `Account::with_keypair`: the address is derived from the public key. -/
def Account.with_keypair (sk : Ed25519PrivateKey) (pk : Ed25519PublicKey) : Account :=
  { addr := from_public_key pk, privkey := sk, pubkey := pk }

/-- `Account::new` draws a fresh keypair from the OS randomness source; the
random draw is made explicit as the two key arguments. -/
def Account.new (sk : Ed25519PrivateKey) (pk : Ed25519PublicKey) : Account :=
  Account.with_keypair sk pk

def Account.address (a : Account) : AccountAddress := a.addr

/-- `Account::rotate_key`: replaces the keypair; the address field is not
touched. -/
def Account.rotate_key (a : Account) (sk : Ed25519PrivateKey) (pk : Ed25519PublicKey) : Account :=
  { a with privkey := sk, pubkey := pk }

def Account.auth_key (a : Account) : List Nat := auth_key_bytes a.pubkey

/-! ## Storage paths -/

/-- Modelled from the spec: a struct tag (module address, module name, struct
name, type arguments); for the tags used by this library the only type
arguments are currency codes. -/
structure StructTag where
  address : Nat
  module : String
  name : String
  ty_args : List Identifier
deriving DecidableEq, Repr

def CORE_CODE_ADDRESS : Nat := 0

/-- Modelled from the spec: `AccountResource::struct_tag()` (outside src). -/
def account_struct_tag : StructTag :=
  { address := CORE_CODE_ADDRESS, module := "LibraAccount", name := "LibraAccount", ty_args := [] }

/-- Modelled from the spec:
`BalanceResource::struct_tag_for_currency(type_tag_for_currency_code code)`
(outside src) — the balance tag is parameterized by the currency code. -/
def balance_struct_tag_for_currency (code : Identifier) : StructTag :=
  { address := CORE_CODE_ADDRESS, module := "LibraAccount", name := "Balance", ty_args := [code] }

/-- Modelled from the spec: `event_handle_generator_struct_tag()` (outside src). -/
def event_handle_generator_struct_tag : StructTag :=
  { address := CORE_CODE_ADDRESS, module := "Event", name := "EventHandleGenerator", ty_args := [] }

/-- Modelled from the spec: the canonical storage key derived from an address
and a type tag (`AccessPath::resource_access_path`, outside src); two distinct
(address, tag) pairs give distinct paths. -/
structure AccessPath where
  addr : AccountAddress
  tag : StructTag
deriving DecidableEq, Repr

def Account.make_access_path (a : Account) (tag : StructTag) : AccessPath :=
  { addr := a.addr, tag := tag }

def Account.make_account_access_path (a : Account) : AccessPath :=
  a.make_access_path account_struct_tag

def Account.make_event_generator_access_path (a : Account) : AccessPath :=
  a.make_access_path event_handle_generator_struct_tag

def Account.make_balance_access_path (a : Account) (code : Identifier) : AccessPath :=
  a.make_access_path (balance_struct_tag_for_currency code)

/-! ## Move values and layouts (the value/layout engine consumed by the core) -/

/-- Move runtime values, as produced by the `Value`/`Struct` builders used in
account.rs (`Value::u64`, `Value::bool`, `Value::address`, `Value::vector_u8`,
`Value::vector_general`, `Value::struct_(Struct::pack ...)`). -/
inductive Value where
  | u64 (n : Nat)
  | bool (b : Bool)
  | address (a : AccountAddress)
  | vectorU8 (bs : List Nat)
  | vectorGeneral (elems : List Value)
  | struct (fields : List Value)

/-- Move runtime types (`FatType`), with struct types inlined. -/
inductive FatType where
  | u8
  | u64
  | bool
  | address
  | vector (elem : FatType)
  | fstruct (address : Nat) (module : String) (name : String) (is_resource : Bool)
      (ty_args : List FatType) (layout : List FatType)

/-- `FatStructType`: the layout descriptor handed to the serializer. -/
structure FatStructType where
  address : Nat
  module : String
  name : String
  is_resource : Bool
  ty_args : List FatType
  layout : List FatType

/-- View a struct layout descriptor as a `FatType`. -/
def FatStructType.asType (s : FatStructType) : FatType :=
  FatType.fstruct s.address s.module s.name s.is_resource s.ty_args s.layout

mutual

/-- Modelled from the spec: the value/layout engine — serializes a value
against a type, failing (`none`) when the value does not structurally match
the layout.  Struct fields are concatenated; vectors carry a uleb128 length. -/
def serializeValue : FatType → Value → Option (List Nat)
  | FatType.u64, Value.u64 n => some (natToLE 8 n)
  | FatType.bool, Value.bool b => some [if b then 1 else 0]
  | FatType.address, Value.address a => some (natToLE 16 a)
  | FatType.vector FatType.u8, Value.vectorU8 bs => some (ulebEncode bs.length ++ bs)
  | FatType.vector t, Value.vectorGeneral es =>
    match serializeElems t es with
    | some bs => some (ulebEncode es.length ++ bs)
    | none => none
  | FatType.fstruct _ _ _ _ _ layout, Value.struct fields => serializeFields layout fields
  | _, _ => none

/-- Serialize a list of struct fields against the layout field list;
fails when the lengths differ or a field mismatches. -/
def serializeFields : List FatType → List Value → Option (List Nat)
  | [], [] => some []
  | t :: ts, v :: vs =>
    match serializeValue t v with
    | some b =>
      match serializeFields ts vs with
      | some bs => some (b ++ bs)
      | none => none
    | none => none
  | _, _ => none

/-- Serialize the elements of a general vector. -/
def serializeElems : FatType → List Value → Option (List Nat)
  | _, [] => some []
  | t, v :: vs =>
    match serializeValue t v with
    | some b =>
      match serializeElems t vs with
      | some bs => some (b ++ bs)
      | none => none
    | none => none

end

/-- `Struct::simple_serialize(&ty)` on a value first viewed as a struct
(`value_as::<Struct>()`): fails unless the value is a struct matching the
layout. -/
def simple_serialize (ty : FatStructType) (v : Value) : Option (List Nat) :=
  match v with
  | Value.struct fields => serializeFields ty.layout fields
  | _ => none

/-! ## Currency codes -/

def LBR_NAME : String := "LBR"
def COIN1_NAME : String := "Coin1"
def COIN2_NAME : String := "Coin2"

def lbr_currency_code : Identifier := LBR_NAME
def coin1_currency_code : Identifier := COIN1_NAME
def coin2_currency_code : Identifier := COIN2_NAME

/-! ## Balance resource -/

/-- `Balance` from account.rs: a single u64 coin amount. -/
structure Balance where
  coin : Nat
deriving DecidableEq, Repr

def Balance.new (coin : Nat) : Balance := { coin := coin }

/-- `Balance::to_value`: a one-field struct holding the coin amount. -/
def Balance.to_value (b : Balance) : Value :=
  Value.struct [Value.u64 b.coin]

/-- `Balance::type_`: the layout descriptor of the balance resource. -/
def Balance.type_ : FatStructType :=
  { address := CORE_CODE_ADDRESS
    module := "LibraAccount"
    name := "Balance"
    is_resource := true
    ty_args := []
    layout := [FatType.u64] }

/-! ## Account role -/

/-- `AccountRoleSpecifier` from account.rs. -/
inductive AccountRoleSpecifier where
  | AssocRoot
  | TreasuryCompliance
  | DesignatedDealer
  | Validator
  | ValidatorOperator
  | ParentVASP
  | ChildVASP
  | Unhosted
deriving DecidableEq, Repr

/-- `AccountRoleSpecifier::id`: the stable integer of each role variant. -/
def AccountRoleSpecifier.id : AccountRoleSpecifier → Nat
  | AccountRoleSpecifier.AssocRoot => 0
  | AccountRoleSpecifier.TreasuryCompliance => 1
  | AccountRoleSpecifier.DesignatedDealer => 2
  | AccountRoleSpecifier.Validator => 3
  | AccountRoleSpecifier.ValidatorOperator => 4
  | AccountRoleSpecifier.ParentVASP => 5
  | AccountRoleSpecifier.ChildVASP => 6
  | AccountRoleSpecifier.Unhosted => 7

/-- `FromStr for AccountRoleSpecifier`: the three recognized strings; any
other string is a typed error (modelled as `none`). -/
def AccountRoleSpecifier.from_str (s : String) : Option AccountRoleSpecifier :=
  if s = "empty" then some AccountRoleSpecifier.AssocRoot
  else if s = "unhosted" then some AccountRoleSpecifier.Unhosted
  else if s = "vasp" then some AccountRoleSpecifier.ParentVASP
  else none

/-- `AccountRole` from account.rs. -/
structure AccountRole where
  self_address : AccountAddress
  account_specifier : AccountRoleSpecifier
deriving DecidableEq, Repr

def AccountRole.new (self_address : AccountAddress)
    (account_specifier : AccountRoleSpecifier) : AccountRole :=
  { self_address := self_address, account_specifier := account_specifier }

/-! ## Event handles and the event handle generator -/

/-- `EventHandle` (from libra-types): a running count plus a byte-string key. -/
structure EventHandle where
  count : Nat
  key : List Nat
deriving DecidableEq, Repr

/-- `new_event_handle(count)` in account.rs calls
`EventHandle::random_handle(count)`: the key is drawn from the process-wide
randomness source.  The random draw is made explicit as the `key` argument. -/
def new_event_handle (count : Nat) (key : List Nat) : EventHandle :=
  { count := count, key := key }

/-- `EventHandleGenerator` from account.rs. -/
structure EventHandleGenerator where
  counter : Nat
  addr : AccountAddress
deriving DecidableEq, Repr

def EventHandleGenerator.new_with_event_count (addr : AccountAddress)
    (counter : Nat) : EventHandleGenerator :=
  { counter := counter, addr := addr }

/-- `EventHandleGenerator::to_value`. -/
def EventHandleGenerator.to_value (g : EventHandleGenerator) : Value :=
  Value.struct [Value.u64 g.counter, Value.address g.addr]

/-- `EventHandleGenerator::type_`. -/
def EventHandleGenerator.type_ : FatStructType :=
  { address := CORE_CODE_ADDRESS
    module := "Event"
    name := "EventHandleGenerator"
    is_resource := true
    ty_args := []
    layout := [FatType.u64, FatType.address] }

/-! ## Capabilities -/

/-- `WithdrawCapability` from account.rs. -/
structure WithdrawCapability where
  account_address : AccountAddress
deriving DecidableEq, Repr

def WithdrawCapability.new (account_address : AccountAddress) : WithdrawCapability :=
  { account_address := account_address }

/-- `WithdrawCapability::type_`. -/
def WithdrawCapability.type_ : FatStructType :=
  { address := CORE_CODE_ADDRESS
    module := "LibraAccount"
    name := "WithdrawCapability"
    is_resource := true
    ty_args := []
    layout := [FatType.address] }

/-- `WithdrawCapability::value`: a single-element general vector holding a
one-field struct (the optional-resource idiom). -/
def WithdrawCapability.value (c : WithdrawCapability) : Value :=
  Value.vectorGeneral [Value.struct [Value.address c.account_address]]

/-- `KeyRotationCapability` from account.rs. -/
structure KeyRotationCapability where
  account_address : AccountAddress
deriving DecidableEq, Repr

def KeyRotationCapability.new (account_address : AccountAddress) : KeyRotationCapability :=
  { account_address := account_address }

/-- `KeyRotationCapability::type_`. -/
def KeyRotationCapability.type_ : FatStructType :=
  { address := CORE_CODE_ADDRESS
    module := "LibraAccount"
    name := "KeyRotationCapability"
    is_resource := true
    ty_args := []
    layout := [FatType.address] }

/-- `KeyRotationCapability::value`. -/
def KeyRotationCapability.value (c : KeyRotationCapability) : Value :=
  Value.vectorGeneral [Value.struct [Value.address c.account_address]]

/-! ## The balances map (BTreeMap modelled as a key-sorted association list) -/

/-- Lexicographic order on character lists, by code point: the `Ord` a
`BTreeMap` keyed by identifiers sorts with. -/
def charListLt : List Char → List Char → Bool
  | _, [] => false
  | [], _ :: _ => true
  | a :: as, b :: bs =>
    if a.toNat < b.toNat then true
    else if b.toNat < a.toNat then false
    else charListLt as bs

/-- Lexicographic order on identifiers. -/
def stringLt (a b : String) : Bool := charListLt a.data b.data

/-- `BTreeMap::insert` on a key-sorted association list: replaces the value
when the key is present, otherwise inserts at the sorted position. -/
def mapInsert (k : Identifier) (v : Balance) :
    List (Identifier × Balance) → List (Identifier × Balance)
  | [] => [(k, v)]
  | (k', v') :: rest =>
    if stringLt k k' then (k, v) :: (k', v') :: rest
    else if k = k' then (k, v) :: rest
    else (k', v') :: mapInsert k v rest

/-- `BTreeMap::get` by key. -/
def mapGet (k : Identifier) : List (Identifier × Balance) → Option Balance
  | [] => none
  | (k', v') :: rest => if k = k' then some v' else mapGet k rest

/-! ## AccountData: the account aggregate -/

/-- `AccountData` from account.rs. -/
structure AccountData where
  account : Account
  withdrawal_capability : Option WithdrawCapability
  key_rotation_capability : Option KeyRotationCapability
  sequence_number : Nat
  sent_events : EventHandle
  received_events : EventHandle
  is_frozen : Bool
  role_id : Nat
  balances : List (Identifier × Balance)
  event_generator : EventHandleGenerator
  account_role : AccountRole
deriving DecidableEq, Repr

/-- `AccountData::with_account_and_event_counts`.  The two trailing key
arguments make explicit the random draws performed by the two
`new_event_handle` calls (`EventHandle::random_handle`). -/
def AccountData.with_account_and_event_counts
    (account : Account) (balance : Nat) (balance_currency_code : Identifier)
    (sequence_number : Nat) (sent_events_count : Nat) (received_events_count : Nat)
    (account_specifier : AccountRoleSpecifier) (is_frozen : Bool)
    (sent_key received_key : List Nat) : AccountData :=
  { account_role := AccountRole.new account.addr account_specifier
    event_generator := EventHandleGenerator.new_with_event_count account.addr 2
    withdrawal_capability := some (WithdrawCapability.new account.addr)
    key_rotation_capability := some (KeyRotationCapability.new account.addr)
    account := account
    balances := mapInsert balance_currency_code (Balance.new balance) []
    sequence_number := sequence_number
    is_frozen := is_frozen
    sent_events := new_event_handle sent_events_count sent_key
    received_events := new_event_handle received_events_count received_key
    role_id := account_specifier.id }

/-- `AccountData::with_account`. -/
def AccountData.with_account
    (account : Account) (balance : Nat) (balance_currency_code : Identifier)
    (sequence_number : Nat) (account_specifier : AccountRoleSpecifier)
    (sent_key received_key : List Nat) : AccountData :=
  AccountData.with_account_and_event_counts account balance balance_currency_code
    sequence_number 0 0 account_specifier false sent_key received_key

/-- `AccountData::with_keypair`. -/
def AccountData.with_keypair
    (privkey : Ed25519PrivateKey) (pubkey : Ed25519PublicKey) (balance : Nat)
    (balance_currency_code : Identifier) (sequence_number : Nat)
    (account_specifier : AccountRoleSpecifier)
    (sent_key received_key : List Nat) : AccountData :=
  AccountData.with_account (Account.with_keypair privkey pubkey) balance
    balance_currency_code sequence_number account_specifier sent_key received_key

/-- `AccountData::new(balance, sequence_number)`: a fresh random account with
an LBR balance and the ParentVASP role.  The random keypair and the two event
handle keys are made explicit as arguments. -/
def AccountData.new (balance : Nat) (sequence_number : Nat)
    (sk : Ed25519PrivateKey) (pk : Ed25519PublicKey)
    (sent_key received_key : List Nat) : AccountData :=
  AccountData.with_account (Account.new sk pk) balance lbr_currency_code
    sequence_number AccountRoleSpecifier.ParentVASP sent_key received_key

/-- `AccountData::add_balance_currency`: inserts a zero balance under the
given currency code (a `BTreeMap::insert`, with no check that the code is
new). -/
def AccountData.add_balance_currency (a : AccountData)
    (balance_currency_code : Identifier) : AccountData :=
  { a with balances := mapInsert balance_currency_code (Balance.new 0) a.balances }

/-- `AccountData::rotate_key`: delegates to `Account::rotate_key`. -/
def AccountData.rotate_key (a : AccountData)
    (sk : Ed25519PrivateKey) (pk : Ed25519PublicKey) : AccountData :=
  { a with account := a.account.rotate_key sk pk }

def AccountData.address (a : AccountData) : AccountAddress := a.account.addr

def AccountData.account_role_spec (a : AccountData) : AccountRoleSpecifier :=
  a.account_role.account_specifier

/-- `AccountData::balance(currency_code)`:
`self.balances.get(currency_code).unwrap().coin()` — the `unwrap` panics when
the currency was never added; the panic is modelled as `none`. -/
def AccountData.balance (a : AccountData) (currency_code : Identifier) : Option Nat :=
  (mapGet currency_code a.balances).map Balance.coin

def AccountData.make_account_access_path (a : AccountData) : AccessPath :=
  a.account.make_account_access_path

def AccountData.make_balance_access_path (a : AccountData) (code : Identifier) : AccessPath :=
  a.account.make_balance_access_path code

def AccountData.make_event_generator_access_path (a : AccountData) : AccessPath :=
  a.account.make_event_generator_access_path

/-! ## Layout descriptors of the account struct -/

/-- `AccountData::sent_payment_event_type`. -/
def AccountData.sent_payment_event_type : FatStructType :=
  { address := CORE_CODE_ADDRESS
    module := "LibraAccount"
    name := "SentPaymentEvent"
    is_resource := false
    ty_args := []
    layout := [FatType.u64, FatType.address, FatType.vector FatType.u8] }

/-- `AccountData::received_payment_event_type`. -/
def AccountData.received_payment_event_type : FatStructType :=
  { address := CORE_CODE_ADDRESS
    module := "LibraAccount"
    name := "ReceivedPaymentEvent"
    is_resource := false
    ty_args := []
    layout := [FatType.u64, FatType.address, FatType.vector FatType.u8] }

/-- `AccountData::event_handle_type(ty)`: the EventHandle layout, generic in
the event type argument (the layout itself does not depend on `ty`). -/
def AccountData.event_handle_type (ty : FatType) : FatStructType :=
  { address := CORE_CODE_ADDRESS
    module := "Event"
    name := "EventHandle"
    is_resource := true
    ty_args := [ty]
    layout := [FatType.u64, FatType.vector FatType.u8] }

/-- `AccountData::type_`: the layout of the LibraAccount struct.  Note the
field order: auth key, withdraw capability, key-rotation capability, the
EventHandle typed by SentPaymentEvent, the EventHandle typed by
ReceivedPaymentEvent, sequence number, frozen flag, role id. -/
def AccountData.type_ : FatStructType :=
  { address := CORE_CODE_ADDRESS
    module := "LibraAccount"
    name := "LibraAccount"
    is_resource := true
    ty_args := []
    layout := [
      FatType.vector FatType.u8,
      FatType.vector (WithdrawCapability.type_).asType,
      FatType.vector (KeyRotationCapability.type_).asType,
      (AccountData.event_handle_type
        (AccountData.sent_payment_event_type).asType).asType,
      (AccountData.event_handle_type
        (AccountData.received_payment_event_type).asType).asType,
      FatType.u64,
      FatType.bool,
      FatType.u64] }

/-! ## to_value and to_writeset -/

/-- The packed EventHandle struct value (count, then key bytes), as packed
inline by `AccountData::to_value`. -/
def eventHandleValue (h : EventHandle) : Value :=
  Value.struct [Value.u64 h.count, Value.vectorU8 h.key]

/-- `AccountData::to_value`: the account struct value, the per-currency
balance values (in map order), and the event-generator value.  The two
`unwrap`s on the capability options are modelled by returning `none` when a
capability is absent.  Note the account struct packs the received-events
handle before the sent-events handle. -/
def AccountData.to_value (a : AccountData) :
    Option (Value × List (Identifier × Value) × Value) :=
  match a.withdrawal_capability, a.key_rotation_capability with
  | some wc, some kc =>
    some
      (Value.struct [
        Value.vectorU8 (auth_key_bytes a.account.pubkey),
        wc.value,
        kc.value,
        eventHandleValue a.received_events,
        eventHandleValue a.sent_events,
        Value.u64 a.sequence_number,
        Value.bool a.is_frozen,
        Value.u64 a.role_id],
      a.balances.map (fun p => (p.1, p.2.to_value)),
      a.event_generator.to_value)
  | _, _ => none

/-- The for-loop of `AccountData::to_writeset` over the balance blobs:
serialize each balance against the Balance layout and pair it with its
balance access path, preserving order.  `none` models the `unwrap` panics. -/
def serializeBalanceBlobs (a : AccountData) :
    List (Identifier × Value) → Option (List (AccessPath × List Nat))
  | [] => some []
  | (code, v) :: rest =>
    match simple_serialize Balance.type_ v with
    | some b =>
      match serializeBalanceBlobs a rest with
      | some tail => some ((a.make_balance_access_path code, b) :: tail)
      | none => none
    | none => none

/-- `AccountData::to_writeset`: account struct entry first, then one entry
per balance (in map order), then the event-generator entry.  Each write is a
full-value write (`WriteOp::Value`), modelled as the serialized bytes.
`none` models the `unwrap` panics on serialization failure. -/
def AccountData.to_writeset (a : AccountData) : Option (List (AccessPath × List Nat)) :=
  match a.to_value with
  | none => none
  | some (account_blob, balance_blobs, event_generator_blob) =>
    match simple_serialize AccountData.type_ account_blob with
    | none => none
    | some account =>
      match serializeBalanceBlobs a balance_blobs with
      | none => none
      | some balance_entries =>
        match simple_serialize EventHandleGenerator.type_ event_generator_blob with
        | none => none
        | some event_generator =>
          some ((a.make_account_access_path, account) ::
            balance_entries ++ [(a.make_event_generator_access_path, event_generator)])

/-- The storage paths of a writeset, in the order `to_writeset` emits them:
the account path, the balance paths in the stored (canonically sorted) map
order, then the event-generator path. -/
def writesetPaths (a : AccountData) : List AccessPath :=
  a.make_account_access_path ::
    a.balances.map (fun p => a.make_balance_access_path p.1) ++
    [a.make_event_generator_access_path]

/-- Deserializing a serialized Balance via its layout (`[U64]`): exactly 8
little-endian bytes making up the coin amount. -/
def deserializeBalance (bs : List Nat) : Option Nat :=
  if bs.length = 8 then some (leToNat bs) else none

/-! ## Transactions -/

/-- `DEFAULT_EXPIRATION_TIME` from account.rs (seconds from logical time 0). -/
def DEFAULT_EXPIRATION_TIME : Nat := 40000

/-- Move type tags appearing as script type arguments. -/
inductive TypeTag where
  | u8
  | u64
  | bool
  | address
  | vector (t : TypeTag)
  | tstruct (s : StructTag)
deriving DecidableEq, Repr

/-- Transaction arguments for scripts. -/
inductive TransactionArgument where
  | u64 (n : Nat)
  | address (a : AccountAddress)
  | u8vector (bs : List Nat)
  | bool (b : Bool)
deriving DecidableEq, Repr

/-- `Script::new(code, ty_args, args)`. -/
structure Script where
  code : List Nat
  ty_args : List TypeTag
  args : List TransactionArgument
deriving DecidableEq, Repr

/-- A write-set payload: ordered full-value writes. -/
abbrev WriteSetPayload := List (AccessPath × List Nat)

/-- `TransactionPayload`. -/
inductive TransactionPayload where
  | script (s : Script)
  | module (code : List Nat)
  | writeSet (ws : WriteSetPayload)
deriving DecidableEq, Repr

/-- Modelled from the spec: `RawTransaction` — sender, sequence number,
payload, gas ceiling, gas unit price, gas currency code, and an expiration
time measured in seconds from logical time zero. -/
structure RawTransaction where
  sender : AccountAddress
  sequence_number : Nat
  payload : TransactionPayload
  max_gas_amount : Nat
  gas_unit_price : Nat
  gas_currency_code : String
  expiration_time : Nat
deriving DecidableEq, Repr

/-- Modelled from the spec: `RawTransaction::new` packs its arguments. -/
def RawTransaction.new (sender : AccountAddress) (sequence_number : Nat)
    (payload : TransactionPayload) (max_gas_amount : Nat) (gas_unit_price : Nat)
    (gas_currency_code : String) (expiration_time : Nat) : RawTransaction :=
  { sender := sender
    sequence_number := sequence_number
    payload := payload
    max_gas_amount := max_gas_amount
    gas_unit_price := gas_unit_price
    gas_currency_code := gas_currency_code
    expiration_time := expiration_time }

/-- Modelled from the spec: `RawTransaction::new_change_set(sender, seq, ws)`
takes no gas parameters at all — a write-set transaction carries fixed
placeholder gas fields that do not come from the caller. -/
def RawTransaction.new_change_set (sender : AccountAddress) (sequence_number : Nat)
    (ws : WriteSetPayload) : RawTransaction :=
  { sender := sender
    sequence_number := sequence_number
    payload := TransactionPayload.writeSet ws
    max_gas_amount := 0
    gas_unit_price := 0
    gas_currency_code := LBR_NAME
    expiration_time := 0 }

/-- Modelled from the spec: `RawTransaction::new_module`. -/
def RawTransaction.new_module (sender : AccountAddress) (sequence_number : Nat)
    (code : List Nat) (max_gas_amount : Nat) (gas_unit_price : Nat)
    (gas_currency_code : String) (expiration_time : Nat) : RawTransaction :=
  RawTransaction.new sender sequence_number (TransactionPayload.module code)
    max_gas_amount gas_unit_price gas_currency_code expiration_time

/-- Modelled from the spec: `RawTransaction::new_script`. -/
def RawTransaction.new_script (sender : AccountAddress) (sequence_number : Nat)
    (s : Script) (max_gas_amount : Nat) (gas_unit_price : Nat)
    (gas_currency_code : String) (expiration_time : Nat) : RawTransaction :=
  RawTransaction.new sender sequence_number (TransactionPayload.script s)
    max_gas_amount gas_unit_price gas_currency_code expiration_time

/-- Modelled from the spec: an ed25519 signature over a raw transaction,
recording the signed message and the key material used. -/
structure Signature where
  message : RawTransaction
  signer : Nat
deriving DecidableEq, Repr

/-- Modelled from the spec: a signature verifies against a public key exactly
when it signs that message with the private key corresponding to the key. -/
def signature_verifies (sig : Signature) (msg : RawTransaction)
    (pk : Ed25519PublicKey) : Prop :=
  sig.message = msg ∧ pubkey_of ⟨sig.signer⟩ = pk

instance (sig : Signature) (msg : RawTransaction) (pk : Ed25519PublicKey) :
    Decidable (signature_verifies sig msg pk) := by
  unfold signature_verifies; infer_instance

/-- `SignedTransaction`: the raw transaction, the public key included by the
signer, and the signature. -/
structure SignedTransaction where
  raw : RawTransaction
  public_key : Ed25519PublicKey
  signature : Signature
deriving DecidableEq, Repr

/-- Modelled from the spec: `RawTransaction::sign(privkey, pubkey)` followed
by `into_inner()` — a pure function producing a signature over the raw
transaction with the given private key; it never mutates the raw
transaction. -/
def RawTransaction.sign (raw : RawTransaction) (sk : Ed25519PrivateKey)
    (pk : Ed25519PublicKey) : SignedTransaction :=
  { raw := raw, public_key := pk, signature := { message := raw, signer := sk.val } }

/-- `Account::create_raw_user_txn`: a write-set payload goes through
`new_change_set` (dropping the gas arguments); module and script payloads go
through `new_module`/`new_script` with the fixed default expiration. -/
def Account.create_raw_user_txn (address : AccountAddress)
    (payload : TransactionPayload) (sequence_number : Nat) (max_gas_amount : Nat)
    (gas_unit_price : Nat) (gas_currency_code : String) : RawTransaction :=
  match payload with
  | TransactionPayload.writeSet ws =>
    RawTransaction.new_change_set address sequence_number ws
  | TransactionPayload.module code =>
    RawTransaction.new_module address sequence_number code max_gas_amount
      gas_unit_price gas_currency_code DEFAULT_EXPIRATION_TIME
  | TransactionPayload.script s =>
    RawTransaction.new_script address sequence_number s max_gas_amount
      gas_unit_price gas_currency_code DEFAULT_EXPIRATION_TIME

/-- `Account::create_raw_txn_impl`: always `RawTransaction::new` with the
fixed default expiration. -/
def Account.create_raw_txn_impl (sender : AccountAddress)
    (program : TransactionPayload) (sequence_number : Nat) (max_gas_amount : Nat)
    (gas_unit_price : Nat) (gas_currency_code : String) : RawTransaction :=
  RawTransaction.new sender sequence_number program max_gas_amount gas_unit_price
    gas_currency_code DEFAULT_EXPIRATION_TIME

/-- `Account::create_signed_txn_impl`: build the raw transaction for the
given sender and sign it with this account's own keypair. -/
def Account.create_signed_txn_impl (a : Account) (sender : AccountAddress)
    (program : TransactionPayload) (sequence_number : Nat) (max_gas_amount : Nat)
    (gas_unit_price : Nat) (gas_currency_code : String) : SignedTransaction :=
  (Account.create_raw_txn_impl sender program sequence_number max_gas_amount
    gas_unit_price gas_currency_code).sign a.privkey a.pubkey

/-- `Account::create_signed_txn_with_args_and_sender`: script payload, custom
sender, signed with this account's key. -/
def Account.create_signed_txn_with_args_and_sender (a : Account)
    (sender : AccountAddress) (program : List Nat) (ty_args : List TypeTag)
    (args : List TransactionArgument) (sequence_number : Nat) (max_gas_amount : Nat)
    (gas_unit_price : Nat) (gas_currency_code : String) : SignedTransaction :=
  a.create_signed_txn_impl sender
    (TransactionPayload.script { code := program, ty_args := ty_args, args := args })
    sequence_number max_gas_amount gas_unit_price gas_currency_code

/-- `Account::create_user_txn`: same signer as sender. -/
def Account.create_user_txn (a : Account) (payload : TransactionPayload)
    (sequence_number : Nat) (max_gas_amount : Nat) (gas_unit_price : Nat)
    (gas_currency_code : String) : SignedTransaction :=
  (Account.create_raw_user_txn a.addr payload sequence_number max_gas_amount
    gas_unit_price gas_currency_code).sign a.privkey a.pubkey

/-! ## Concrete instances used by witness statements -/

/-- A concrete account (keypair 1/1, so its address is 1). -/
def exampleAccount : Account := Account.with_keypair ⟨1⟩ ⟨1⟩

/-- A concrete aggregate: 500 LBR, sequence number 3, ParentVASP role,
sent-events key [9], received-events key [8]. -/
def exampleAccountData : AccountData :=
  AccountData.with_account_and_event_counts exampleAccount 500 lbr_currency_code 3 0 0
    AccountRoleSpecifier.ParentVASP false [9] [8]

/-- The account struct value `to_value` produces for `exampleAccountData`. -/
def exampleAccountStructValue : Value :=
  Value.struct [
    Value.vectorU8 (auth_key_bytes ⟨1⟩),
    Value.vectorGeneral [Value.struct [Value.address 1]],
    Value.vectorGeneral [Value.struct [Value.address 1]],
    Value.struct [Value.u64 0, Value.vectorU8 [8]],
    Value.struct [Value.u64 0, Value.vectorU8 [9]],
    Value.u64 3,
    Value.bool false,
    Value.u64 5]

/-- The balance values `to_value` produces for `exampleAccountData`. -/
def exampleBalanceValues : List (Identifier × Value) :=
  [(lbr_currency_code, Value.struct [Value.u64 500])]

/-- The event-generator value `to_value` produces for `exampleAccountData`. -/
def exampleEventGeneratorValue : Value :=
  Value.struct [Value.u64 2, Value.address 1]

/-! ## Supporting lemmas -/

theorem natToLE_length (k : Nat) : ∀ n, (natToLE k n).length = k := by
  induction k with
  | zero => intro n; rfl
  | succ k ih => intro n; simp [natToLE, ih]

theorem leToNat_natToLE (k : Nat) : ∀ n, leToNat (natToLE k n) = n % 256 ^ k := by
  induction k with
  | zero => intro n; simp [natToLE, leToNat, Nat.mod_one]
  | succ k ih =>
    intro n
    have h : (256 : Nat) ^ (k + 1) = 256 * 256 ^ k := by ring
    rw [natToLE, leToNat, ih, h, Nat.mod_mul]
    omega

theorem mapGet_mapInsert_same (k : Identifier) (v : Balance) :
    ∀ l, mapGet k (mapInsert k v l) = some v := by
  intro l
  induction l with
  | nil => simp [mapInsert, mapGet]
  | cons p rest ih =>
    obtain ⟨k', v'⟩ := p
    cases hlt : stringLt k k' with
    | true => simp [mapInsert, mapGet, hlt]
    | false =>
      by_cases heq : k = k'
      · subst heq
        simp [mapInsert, mapGet, hlt]
      · simp [mapInsert, mapGet, hlt, heq, ih]

theorem mapGet_mapInsert_other (k k' : Identifier) (v : Balance) (hne : k' ≠ k) :
    ∀ l, mapGet k' (mapInsert k v l) = mapGet k' l := by
  intro l
  induction l with
  | nil => simp [mapInsert, mapGet, hne]
  | cons p rest ih =>
    obtain ⟨k0, v0⟩ := p
    cases hlt : stringLt k k0 with
    | true => simp [mapInsert, mapGet, hlt, hne]
    | false =>
      by_cases heq : k = k0
      · subst heq
        simp [mapInsert, mapGet, hlt, hne]
      · by_cases h' : k' = k0
        · simp [mapInsert, mapGet, hlt, heq, h']
        · simp [mapInsert, mapGet, hlt, heq, h', ih]

theorem deserializeBalance_natToLE (n : Nat) (h : n < 2 ^ 64) :
    deserializeBalance (natToLE 8 n) = some n := by
  have h8 : (natToLE 8 n).length = 8 := natToLE_length 8 n
  have hm : leToNat (natToLE 8 n) = n % 256 ^ 8 := leToNat_natToLE 8 n
  have hlt : n < 256 ^ 8 := by
    have hpow : (256 : Nat) ^ 8 = 2 ^ 64 := by norm_num
    rw [hpow]
    exact h
  norm_num at hlt
  simp [deserializeBalance, h8, hm]
  exact hlt

/-- Serializing one balance value against the Balance layout always succeeds
and yields the 8 little-endian bytes of the coin amount. -/
theorem serialize_balance (b : Balance) :
    simple_serialize Balance.type_ b.to_value = some (natToLE 8 b.coin) := by
  simp [simple_serialize, Balance.type_, Balance.to_value, serializeFields, serializeValue]

/-- Serializing the balance blobs of a balances map always succeeds and
yields, in map order, one entry per currency holding the 8 little-endian
bytes of the coin amount. -/
theorem serializeBalanceBlobs_map (a : AccountData) (l : List (Identifier × Balance)) :
    serializeBalanceBlobs a (l.map (fun p => (p.1, p.2.to_value))) =
      some (l.map (fun p =>
        (a.make_balance_access_path p.1, natToLE 8 p.2.coin))) := by
  induction l with
  | nil => rfl
  | cons p rest ih =>
    obtain ⟨code, b⟩ := p
    simp only [List.map_cons, serializeBalanceBlobs, serialize_balance, ih]

/-- Serializing the event-generator value always succeeds. -/
theorem serialize_event_generator (g : EventHandleGenerator) :
    simple_serialize EventHandleGenerator.type_ g.to_value =
      some (natToLE 8 g.counter ++ natToLE 16 g.addr) := by
  simp [simple_serialize, EventHandleGenerator.type_, EventHandleGenerator.to_value,
    serializeFields, serializeValue]

/-- Serializing the packed account struct against `AccountData::type_` always
succeeds: the packed value matches the layout field-for-field (even though
the sent/received event-handle positions are swapped relative to the naming
of the layout's type arguments — the two handle layouts are structurally
identical). -/
theorem serialize_account_struct_isSome (ak : List Nat) (wa ka : AccountAddress)
    (rh sh : EventHandle) (seq : Nat) (fz : Bool) (rid : Nat) :
    (simple_serialize AccountData.type_ (Value.struct [
      Value.vectorU8 ak,
      Value.vectorGeneral [Value.struct [Value.address wa]],
      Value.vectorGeneral [Value.struct [Value.address ka]],
      eventHandleValue rh,
      eventHandleValue sh,
      Value.u64 seq,
      Value.bool fz,
      Value.u64 rid])).isSome = true := by
  simp [simple_serialize, AccountData.type_, FatStructType.asType,
    WithdrawCapability.type_, KeyRotationCapability.type_,
    AccountData.event_handle_type, eventHandleValue,
    serializeFields, serializeValue, serializeElems]

/-- `to_writeset` of a freshly constructed single-currency aggregate: exactly
three entries, in the order account struct, the one balance, event
generator; the balance entry carries the 8 little-endian coin bytes. -/
theorem to_writeset_single_currency (account : Account) (bal : Nat)
    (code : Identifier) (seq sc rc : Nat) (spec : AccountRoleSpecifier) (fz : Bool)
    (k1 k2 : List Nat) :
    ∃ accB egB,
      (AccountData.with_account_and_event_counts account bal code seq sc rc spec fz
        k1 k2).to_writeset =
        some [(account.make_account_access_path, accB),
              (account.make_balance_access_path code, natToLE 8 bal),
              (account.make_event_generator_access_path, egB)] := by
  obtain ⟨accB, haccB⟩ := Option.isSome_iff_exists.mp
    (serialize_account_struct_isSome (auth_key_bytes account.pubkey)
      account.addr account.addr (new_event_handle rc k2) (new_event_handle sc k1)
      seq fz spec.id)
  have hv : (AccountData.with_account_and_event_counts account bal code seq sc rc
      spec fz k1 k2).to_value =
      some (Value.struct [
        Value.vectorU8 (auth_key_bytes account.pubkey),
        Value.vectorGeneral [Value.struct [Value.address account.addr]],
        Value.vectorGeneral [Value.struct [Value.address account.addr]],
        eventHandleValue (new_event_handle rc k2),
        eventHandleValue (new_event_handle sc k1),
        Value.u64 seq,
        Value.bool fz,
        Value.u64 spec.id],
      [(code, (Balance.new bal).to_value)],
      (EventHandleGenerator.new_with_event_count account.addr 2).to_value) := rfl
  have hb : serializeBalanceBlobs
      (AccountData.with_account_and_event_counts account bal code seq sc rc spec fz k1 k2)
      [(code, (Balance.new bal).to_value)] =
      some [((AccountData.with_account_and_event_counts account bal code seq sc rc
        spec fz k1 k2).make_balance_access_path code, natToLE 8 bal)] := by
    simp [serializeBalanceBlobs, serialize_balance, Balance.new]
  have heg := serialize_event_generator
    (EventHandleGenerator.new_with_event_count account.addr 2)
  refine ⟨accB, natToLE 8 2 ++ natToLE 16 account.addr, ?_⟩
  simp only [AccountData.to_writeset, hv, haccB, hb, heg]
  simp [AccountData.make_account_access_path, AccountData.make_balance_access_path,
    AccountData.make_event_generator_access_path,
    AccountData.with_account_and_event_counts,
    EventHandleGenerator.new_with_event_count]

/-- When both capabilities are present, `to_writeset` succeeds and its paths
are exactly `writesetPaths`: the account path, the balance paths in the
stored (sorted) map order, then the event-generator path. -/
theorem to_writeset_map_fst (a : AccountData) (wc : WithdrawCapability)
    (kc : KeyRotationCapability) (hwc : a.withdrawal_capability = some wc)
    (hkc : a.key_rotation_capability = some kc) :
    Option.map (List.map Prod.fst) a.to_writeset = some (writesetPaths a) := by
  have hv : a.to_value = some (Value.struct [
      Value.vectorU8 (auth_key_bytes a.account.pubkey),
      Value.vectorGeneral [Value.struct [Value.address wc.account_address]],
      Value.vectorGeneral [Value.struct [Value.address kc.account_address]],
      eventHandleValue a.received_events,
      eventHandleValue a.sent_events,
      Value.u64 a.sequence_number,
      Value.bool a.is_frozen,
      Value.u64 a.role_id],
    a.balances.map (fun p => (p.1, p.2.to_value)),
    a.event_generator.to_value) := by
    simp [AccountData.to_value, hwc, hkc, WithdrawCapability.value,
      KeyRotationCapability.value]
  obtain ⟨accB, haccB⟩ := Option.isSome_iff_exists.mp
    (serialize_account_struct_isSome (auth_key_bytes a.account.pubkey)
      wc.account_address kc.account_address a.received_events a.sent_events
      a.sequence_number a.is_frozen a.role_id)
  have hbb := serializeBalanceBlobs_map a a.balances
  have heg := serialize_event_generator a.event_generator
  simp only [AccountData.to_writeset, hv, haccB, hbb, heg]
  simp [writesetPaths, List.map_map, Function.comp]

/-! ## Claims -/

/-- C1 counterexample: on an aggregate whose LBR balance is 500,
`add_balance_currency("LBR")` returns normally (no typed failure is possible
for an infallible operation), is not a no-op, and silently replaces the
existing 500 balance with a zero balance — refuting the claim that the
existing Balance for an already-present currency code is never silently
replaced. -/
theorem add_balance_currency_silently_replaces_cex :
    exampleAccountData.balance lbr_currency_code = some 500 ∧
    (exampleAccountData.add_balance_currency lbr_currency_code).balance
      lbr_currency_code = some 0 ∧
    exampleAccountData.add_balance_currency lbr_currency_code ≠ exampleAccountData := by
  decide

/-- C1 (amended): `add_balance_currency(code)` always inserts a zero balance
under `code`, silently replacing any Balance already held under `code`; it
neither fails nor is a no-op; balances under other currency codes are
unchanged. -/
theorem add_balance_currency_overwrites (a : AccountData) (code c : Identifier)
    (h : c ≠ code) :
    (a.add_balance_currency code).balance code = some 0 ∧
    (a.add_balance_currency code).balance c = a.balance c := by
  constructor
  · simp [AccountData.balance, AccountData.add_balance_currency,
      mapGet_mapInsert_same, Balance.new]
  · simp [AccountData.balance, AccountData.add_balance_currency,
      mapGet_mapInsert_other code c (Balance.new 0) h]

/-- C1 witness: the amended claim at a concrete aggregate holding 500 LBR. -/
theorem add_balance_currency_overwrites_witness :
    (exampleAccountData.add_balance_currency lbr_currency_code).balance
      lbr_currency_code = some 0 ∧
    (exampleAccountData.add_balance_currency lbr_currency_code).balance
      coin1_currency_code = exampleAccountData.balance coin1_currency_code :=
  add_balance_currency_overwrites exampleAccountData lbr_currency_code
    coin1_currency_code (by decide)

/-- C2 counterexample: `balance("Coin1")` on an aggregate that only ever
held LBR evaluates to `none`, which models the panic of the
`.get(..).unwrap()` in the source — the process aborts; no typed NotFound
failure is returned to the caller, refuting the claim. -/
theorem balance_unregistered_cex :
    exampleAccountData.balance coin1_currency_code = none := by
  decide

/-- C2 (amended): for a currency code different from the (single) code the
aggregate was constructed with, `balance` hits the `unwrap` panic (modelled
as `none`) instead of returning a typed not-found failure. -/
theorem balance_unregistered_panics (account : Account) (bal : Nat)
    (code : Identifier) (seq sc rc : Nat) (spec : AccountRoleSpecifier) (fz : Bool)
    (k1 k2 : List Nat) (c : Identifier) (h : c ≠ code) :
    (AccountData.with_account_and_event_counts account bal code seq sc rc spec fz
      k1 k2).balance c = none := by
  simp [AccountData.balance, AccountData.with_account_and_event_counts,
    mapGet_mapInsert_other code c (Balance.new bal) h, mapGet, h]

/-- C2 witness: the amended claim at a concrete aggregate and currency. -/
theorem balance_unregistered_panics_witness :
    (AccountData.with_account_and_event_counts exampleAccount 500 lbr_currency_code
      3 0 0 AccountRoleSpecifier.ParentVASP false [9] [8]).balance
      coin1_currency_code = none :=
  balance_unregistered_panics exampleAccount 500 lbr_currency_code 3 0 0
    AccountRoleSpecifier.ParentVASP false [9] [8] coin1_currency_code (by decide)

/-- C3 counterexample: two calls to `with_account_and_event_counts` with the
same Account and identical argument values produce different `AccountData`
values when the hidden random draws of `EventHandle::random_handle` (made
explicit here as the trailing key arguments) differ — refuting the claim
that no hidden randomness beyond Identity creation enters any field. -/
theorem construction_randomness_cex :
    AccountData.with_account_and_event_counts exampleAccount 0 lbr_currency_code
        0 0 0 AccountRoleSpecifier.ParentVASP false [0] [] ≠
      AccountData.with_account_and_event_counts exampleAccount 0 lbr_currency_code
        0 0 0 AccountRoleSpecifier.ParentVASP false [1] [] := by
  decide

/-- C3 (amended): construction is deterministic apart from Identity creation
and the two event-handle key draws: two calls with the same Account and
identical argument values agree on every field except possibly the
sent/received event handles, whose values are fully determined by the counts
and the random draws (so equal draws give equal aggregates). -/
theorem construction_deterministic_given_draws (account : Account) (bal : Nat)
    (code : Identifier) (seq sc rc : Nat) (spec : AccountRoleSpecifier) (fz : Bool)
    (k1 k2 k1' k2' : List Nat) :
    AccountData.with_account_and_event_counts account bal code seq sc rc spec fz
        k1 k2 =
      { AccountData.with_account_and_event_counts account bal code seq sc rc spec fz
          k1' k2' with
        sent_events := new_event_handle sc k1,
        received_events := new_event_handle rc k2 } := rfl

/-- C4: `AccountData::new(balance, sequence_number)` (random draws explicit)
gives a writeset of exactly 3 entries, in the order account-struct path,
the one balance path for the default (LBR) currency, event-generator path;
and the balance entry (the 8 little-endian coin bytes) deserializes via the
Balance layout back to the original coin amount. -/
theorem new_to_writeset_three_entries (bal seq sk pk : Nat) (k1 k2 : List Nat)
    (h : bal < 2 ^ 64) :
    ∃ accB egB,
      (AccountData.new bal seq ⟨sk⟩ ⟨pk⟩ k1 k2).to_writeset =
        some [((AccountData.new bal seq ⟨sk⟩ ⟨pk⟩ k1 k2).make_account_access_path,
                accB),
              ((AccountData.new bal seq ⟨sk⟩ ⟨pk⟩ k1 k2).make_balance_access_path
                lbr_currency_code, natToLE 8 bal),
              ((AccountData.new bal seq ⟨sk⟩ ⟨pk⟩
                k1 k2).make_event_generator_access_path, egB)] ∧
      deserializeBalance (natToLE 8 bal) = some bal := by
  obtain ⟨accB, egB, hw⟩ := to_writeset_single_currency (Account.new ⟨sk⟩ ⟨pk⟩) bal
    lbr_currency_code seq 0 0 AccountRoleSpecifier.ParentVASP false k1 k2
  exact ⟨accB, egB, hw, deserializeBalance_natToLE bal h⟩

/-- C4 witness: the scenario of the spec, balance 1000000 and sequence
number 0, at a concrete keypair and concrete event-handle draws. -/
theorem new_to_writeset_three_entries_witness :
    ∃ accB egB,
      (AccountData.new 1000000 0 ⟨1⟩ ⟨1⟩ [3] [4]).to_writeset =
        some [((AccountData.new 1000000 0 ⟨1⟩ ⟨1⟩ [3] [4]).make_account_access_path,
                accB),
              ((AccountData.new 1000000 0 ⟨1⟩ ⟨1⟩ [3] [4]).make_balance_access_path
                lbr_currency_code, natToLE 8 1000000),
              ((AccountData.new 1000000 0 ⟨1⟩ ⟨1⟩
                [3] [4]).make_event_generator_access_path, egB)] ∧
      deserializeBalance (natToLE 8 1000000) = some 1000000 :=
  new_to_writeset_three_entries 1000000 0 1 1 [3] [4] (by norm_num)

/-- C5: `to_writeset` is a pure function of the aggregate — two calls on an
unmodified aggregate give byte-identical writesets — and (for any aggregate
whose capabilities are present, as all constructed aggregates are) the
emitted paths are exactly the canonical `writesetPaths` order: account path,
balance paths in the stored sorted-map order, event-generator path; no
nondeterministic iteration order can leak into the output. -/
theorem to_writeset_deterministic (a b : AccountData) (hab : a = b)
    (wc : WithdrawCapability) (kc : KeyRotationCapability)
    (hwc : a.withdrawal_capability = some wc)
    (hkc : a.key_rotation_capability = some kc) :
    a.to_writeset = b.to_writeset ∧
      Option.map (List.map Prod.fst) a.to_writeset = some (writesetPaths a) := by
  subst hab
  exact ⟨rfl, to_writeset_map_fst a wc kc hwc hkc⟩

/-- C5 witness: the byte-identity and canonical path order at a concrete
aggregate. -/
theorem to_writeset_deterministic_witness :
    exampleAccountData.to_writeset = exampleAccountData.to_writeset ∧
      Option.map (List.map Prod.fst) exampleAccountData.to_writeset =
        some (writesetPaths exampleAccountData) :=
  to_writeset_deterministic exampleAccountData exampleAccountData rfl
    (WithdrawCapability.new 1) (KeyRotationCapability.new 1) rfl rfl

/-- C6: in the account struct packed by `to_value`, position 3 holds the
received-events handle and position 4 the sent-events handle, while the
layout `AccountData::type_` lists at position 3 the EventHandle typed by
SentPaymentEvent and at position 4 the one typed by ReceivedPaymentEvent —
the two handle positions are swapped relative to the layout's sent/received
naming; the two EventHandle layouts are structurally identical (the same
field layout regardless of their type argument), so serializing the struct
against `type_` still succeeds. -/
theorem to_value_event_handles_swapped (a : AccountData) (v : Value)
    (bals : List (Identifier × Value)) (eg : Value)
    (h : a.to_value = some (v, bals, eg)) :
    ∃ fields, v = Value.struct fields ∧
      fields.get? 3 = some (eventHandleValue a.received_events) ∧
      fields.get? 4 = some (eventHandleValue a.sent_events) ∧
      AccountData.type_.layout.get? 3 = some (AccountData.event_handle_type
        (AccountData.sent_payment_event_type).asType).asType ∧
      AccountData.type_.layout.get? 4 = some (AccountData.event_handle_type
        (AccountData.received_payment_event_type).asType).asType ∧
      AccountData.sent_payment_event_type.name = "SentPaymentEvent" ∧
      AccountData.received_payment_event_type.name = "ReceivedPaymentEvent" ∧
      (AccountData.event_handle_type
          (AccountData.sent_payment_event_type).asType).layout =
        (AccountData.event_handle_type
          (AccountData.received_payment_event_type).asType).layout ∧
      (simple_serialize AccountData.type_ v).isSome = true := by
  unfold AccountData.to_value at h
  cases hwc : a.withdrawal_capability with
  | none => rw [hwc] at h; simp at h
  | some wc =>
    cases hkc : a.key_rotation_capability with
    | none => rw [hwc, hkc] at h; simp at h
    | some kc =>
      rw [hwc, hkc] at h
      simp only [Option.some.injEq, Prod.mk.injEq] at h
      obtain ⟨hv, _, _⟩ := h
      subst hv
      refine ⟨_, rfl, rfl, rfl, rfl, rfl, rfl, rfl, rfl, ?_⟩
      exact serialize_account_struct_isSome (auth_key_bytes a.account.pubkey)
        wc.account_address kc.account_address a.received_events a.sent_events
        a.sequence_number a.is_frozen a.role_id

/-- C6 witness: the swap at a concrete aggregate and its concrete packed
struct value. -/
theorem to_value_event_handles_swapped_witness :
    ∃ fields, exampleAccountStructValue = Value.struct fields ∧
      fields.get? 3 = some (eventHandleValue exampleAccountData.received_events) ∧
      fields.get? 4 = some (eventHandleValue exampleAccountData.sent_events) ∧
      AccountData.type_.layout.get? 3 = some (AccountData.event_handle_type
        (AccountData.sent_payment_event_type).asType).asType ∧
      AccountData.type_.layout.get? 4 = some (AccountData.event_handle_type
        (AccountData.received_payment_event_type).asType).asType ∧
      AccountData.sent_payment_event_type.name = "SentPaymentEvent" ∧
      AccountData.received_payment_event_type.name = "ReceivedPaymentEvent" ∧
      (AccountData.event_handle_type
          (AccountData.sent_payment_event_type).asType).layout =
        (AccountData.event_handle_type
          (AccountData.received_payment_event_type).asType).layout ∧
      (simple_serialize AccountData.type_ exampleAccountStructValue).isSome = true :=
  to_value_event_handles_swapped exampleAccountData exampleAccountStructValue
    exampleBalanceValues exampleEventGeneratorValue rfl

/-- C7: key rotation replaces exactly the private and public key, on both
`Account` and the delegating `AccountData`: the address is unchanged and
every other field of the aggregate is unchanged. -/
theorem rotate_key_preserves_address_and_frame (b : Account) (a : AccountData)
    (sk : Ed25519PrivateKey) (pk : Ed25519PublicKey) :
    (b.rotate_key sk pk).addr = b.addr ∧
    (b.rotate_key sk pk).privkey = sk ∧
    (b.rotate_key sk pk).pubkey = pk ∧
    (a.rotate_key sk pk).address = a.address ∧
    (a.rotate_key sk pk).account = a.account.rotate_key sk pk ∧
    (a.rotate_key sk pk).withdrawal_capability = a.withdrawal_capability ∧
    (a.rotate_key sk pk).key_rotation_capability = a.key_rotation_capability ∧
    (a.rotate_key sk pk).sequence_number = a.sequence_number ∧
    (a.rotate_key sk pk).sent_events = a.sent_events ∧
    (a.rotate_key sk pk).received_events = a.received_events ∧
    (a.rotate_key sk pk).is_frozen = a.is_frozen ∧
    (a.rotate_key sk pk).role_id = a.role_id ∧
    (a.rotate_key sk pk).balances = a.balances ∧
    (a.rotate_key sk pk).event_generator = a.event_generator ∧
    (a.rotate_key sk pk).account_role = a.account_role :=
  ⟨rfl, rfl, rfl, rfl, rfl, rfl, rfl, rfl, rfl, rfl, rfl, rfl, rfl, rfl, rfl⟩

/-- C8: `create_raw_user_txn` with a write-set payload ignores the supplied
max gas amount and gas unit price (the result does not depend on them),
while script and module payloads receive the fixed expiration of exactly
40000 time units from logical time zero (and do receive the gas
parameters). -/
theorem create_raw_user_txn_gas_and_expiration (addr : AccountAddress)
    (ws : WriteSetPayload) (s : Script) (m : List Nat)
    (seq g g' p p' : Nat) (code : String) :
    Account.create_raw_user_txn addr (TransactionPayload.writeSet ws) seq g p code =
      Account.create_raw_user_txn addr (TransactionPayload.writeSet ws) seq g' p'
        code ∧
    (Account.create_raw_user_txn addr (TransactionPayload.script s) seq g p
      code).expiration_time = DEFAULT_EXPIRATION_TIME ∧
    (Account.create_raw_user_txn addr (TransactionPayload.module m) seq g p
      code).expiration_time = DEFAULT_EXPIRATION_TIME ∧
    (Account.create_raw_user_txn addr (TransactionPayload.script s) seq g p
      code).max_gas_amount = g ∧
    (Account.create_raw_user_txn addr (TransactionPayload.script s) seq g p
      code).gas_unit_price = p ∧
    DEFAULT_EXPIRATION_TIME = 40000 :=
  ⟨rfl, rfl, rfl, rfl, rfl, rfl⟩

/-- C9: `create_signed_txn_with_args_and_sender` with a sender address
different from the signer's own address produces a SignedTransaction whose
sender field is the supplied sender, signed with the signer's own private
key, whose signature verifies against the signer's own public key; the
operation is total — no validation rejects the mismatch at this layer. -/
theorem signed_txn_custom_sender (acct : Account) (sender : AccountAddress)
    (program : List Nat) (ty_args : List TypeTag) (args : List TransactionArgument)
    (seq max_gas gas_price : Nat) (code : String)
    (hwf : acct.pubkey = pubkey_of acct.privkey) (_hne : sender ≠ acct.addr) :
    (acct.create_signed_txn_with_args_and_sender sender program ty_args args seq
      max_gas gas_price code).raw.sender = sender ∧
    (acct.create_signed_txn_with_args_and_sender sender program ty_args args seq
      max_gas gas_price code).signature.signer = acct.privkey.val ∧
    signature_verifies
      (acct.create_signed_txn_with_args_and_sender sender program ty_args args seq
        max_gas gas_price code).signature
      (acct.create_signed_txn_with_args_and_sender sender program ty_args args seq
        max_gas gas_price code).raw
      acct.pubkey :=
  ⟨rfl, rfl, rfl, hwf.symm⟩

/-- C9 witness: a concrete signer (keypair 1/1, address 1) and the distinct
sender address 99. -/
theorem signed_txn_custom_sender_witness :
    (exampleAccount.create_signed_txn_with_args_and_sender 99 [7] [] [] 0
      600000 0 LBR_NAME).raw.sender = 99 ∧
    (exampleAccount.create_signed_txn_with_args_and_sender 99 [7] [] [] 0
      600000 0 LBR_NAME).signature.signer = exampleAccount.privkey.val ∧
    signature_verifies
      (exampleAccount.create_signed_txn_with_args_and_sender 99 [7] [] [] 0
        600000 0 LBR_NAME).signature
      (exampleAccount.create_signed_txn_with_args_and_sender 99 [7] [] [] 0
        600000 0 LBR_NAME).raw
      exampleAccount.pubkey :=
  signed_txn_custom_sender exampleAccount 99 [7] [] [] 0 600000 0 LBR_NAME rfl
    (by decide)

/-- C10: the eight role variants map to the stable ids 0..7; the id is
stored verbatim as the aggregate's `role_id`; and the packed account struct
carries exactly this id as its last (8th) field, so it is what gets
serialized. -/
theorem account_role_specifier_ids :
    AccountRoleSpecifier.AssocRoot.id = 0 ∧
    AccountRoleSpecifier.TreasuryCompliance.id = 1 ∧
    AccountRoleSpecifier.DesignatedDealer.id = 2 ∧
    AccountRoleSpecifier.Validator.id = 3 ∧
    AccountRoleSpecifier.ValidatorOperator.id = 4 ∧
    AccountRoleSpecifier.ParentVASP.id = 5 ∧
    AccountRoleSpecifier.ChildVASP.id = 6 ∧
    AccountRoleSpecifier.Unhosted.id = 7 ∧
    (∀ (account : Account) (bal : Nat) (code : Identifier) (seq sc rc : Nat)
        (spec : AccountRoleSpecifier) (fz : Bool) (k1 k2 : List Nat),
      (AccountData.with_account_and_event_counts account bal code seq sc rc spec fz
        k1 k2).role_id = spec.id) ∧
    (∀ (account : Account) (bal : Nat) (code : Identifier) (seq sc rc : Nat)
        (spec : AccountRoleSpecifier) (fz : Bool) (k1 k2 : List Nat),
      ∃ fields bals eg,
        (AccountData.with_account_and_event_counts account bal code seq sc rc spec
          fz k1 k2).to_value = some (Value.struct fields, bals, eg) ∧
        fields.get? 7 = some (Value.u64 spec.id)) := by
  refine ⟨rfl, rfl, rfl, rfl, rfl, rfl, rfl, rfl, ?_, ?_⟩
  · intro account bal code seq sc rc spec fz k1 k2
    rfl
  · intro account bal code seq sc rc spec fz k1 k2
    exact ⟨_, _, _, rfl, rfl⟩

end LibraAccount
